import Mathlib

/-!
Verification of the Heathkit ID-5001 serial driver (`id5001.py`).

This file gives a shallow embedding of the driver's decoding and polling
logic and proves properties about it.  Numeric values are modelled as
rationals.  Python string indexing (`s[i]`, which raises `IndexError` out
of range and supports negative indices), slicing (which clips), and
`int(...)` (which strips whitespace, accepts a sign, and allows single
underscores between digits) are modelled by `pyGetChar`, `pySlice` /
`pySliceFrom` and `pyInt`.  A Python expression that can raise is modelled
with the result type `PyRes`; code regions protected by `try/except` in the
source appear in the embedding as total code (every failure inside them is
mapped to the value the handler produces), while operations the source
performs outside any `try` block keep their `PyRes.exc` outcome.
-/

/-- Outcome of a Python expression: a value, or a raised exception. -/
inductive PyRes (α : Type) where
  | ok (a : α)
  | exc
  deriving DecidableEq

/-- Whether a Python computation returned normally. -/
def PyRes.isOk {α : Type} : PyRes α → Bool
  | .ok _ => true
  | .exc => false

/-- Python `s[i]`: supports negative indices from the end; raises
(`.exc`) when the index is out of range. -/
def pyGetChar (s : String) (i : Int) : PyRes Char :=
  let n : Int := (s.length : Int)
  let j : Int := if i < 0 then i + n else i
  if 0 ≤ j ∧ j < n then .ok (s.toList.getD j.toNat 'A') else .exc

/-- Python `s[a:b]` for `0 ≤ a ≤ b`: clips to the string length, never
raises. -/
def pySlice (s : String) (a b : Nat) : String :=
  String.mk ((s.toList.drop a).take (b - a))

/-- Python `s[a:]` for `0 ≤ a`: clips, never raises. -/
def pySliceFrom (s : String) (a : Nat) : String :=
  String.mk (s.toList.drop a)

/-- Value of an ASCII decimal digit. -/
def digitVal (c : Char) : Option Nat :=
  if '0' ≤ c ∧ c ≤ '9' then some (c.toNat - '0'.toNat) else none

/-- Digits of a Python integer literal after the first one: single
underscores are permitted between digits. -/
def parseUDigitsAux : Nat → List Char → Option Nat
  | acc, [] => some acc
  | acc, '_' :: c :: cs =>
    match digitVal c with
    | some d => parseUDigitsAux (acc * 10 + d) cs
    | none => none
  | _, '_' :: [] => none
  | acc, c :: cs =>
    match digitVal c with
    | some d => parseUDigitsAux (acc * 10 + d) cs
    | none => none

/-- A nonempty digit string (with optional medial underscores), as accepted
by Python `int`. -/
def parseUDigits : List Char → Option Nat
  | [] => none
  | c :: cs =>
    match digitVal c with
    | some d => parseUDigitsAux d cs
    | none => none

/-- Whitespace stripped by Python `int` / `str.strip`. -/
def isPySpace (c : Char) : Bool :=
  c == ' ' || c == '\t' || c == '\n' || c == '\r' || c == '\x0b' || c == '\x0c'

/-- Strip leading and trailing whitespace. -/
def pyStrip (l : List Char) : List Char :=
  ((l.dropWhile isPySpace).reverse.dropWhile isPySpace).reverse

/-- Python `int(s)`: `none` models a raised `ValueError`. -/
def pyInt (s : String) : Option Int :=
  match pyStrip s.toList with
  | '+' :: rest => (parseUDigits rest).map (fun n => (n : Int))
  | '-' :: rest => (parseUDigits rest).map (fun n => -(n : Int))
  | rest => (parseUDigits rest).map (fun n => (n : Int))

/-- `MILE_PER_KNOT = 1.15078` from the source module. -/
def MILE_PER_KNOT : ℚ := 115078 / 100000

/-- Modelled from the spec: the external `weewx.units.CtoF` helper, the
standard Celsius-to-Fahrenheit conversion. -/
def CtoF (t : ℚ) : ℚ := t * 9 / 5 + 32

/-- Modelled from the spec: the external `weewx.units.kph_to_mph` helper,
the standard km/h-to-mph conversion (1 mile = 1.609344 km). -/
def kph_to_mph (v : ℚ) : ℚ := v / (1609344 / 1000000)

/-- Modelled from the spec: the external `weewx.units.INHG_PER_MBAR`
constant (inches of mercury per millibar). -/
def INHG_PER_MBAR : ℚ := 295299830714 / 10000000000000

/-- Modelled from the spec: the external `weewx.units.CM_PER_INCH`
constant. -/
def CM_PER_INCH : ℚ := 254 / 100

/-- `Station._decodeTemperature`.  The leading wind-chill marker test
`s[0] == 'c'` and the Celsius marker test `s[-1] == 'C'` happen outside the
`try` block, so they can raise; the `int(s[1:4])` parse and conversion are
inside it, so a parse failure yields `none`. -/
def _decodeTemperature (s : String) : PyRes (Option ℚ) :=
  match pyGetChar s 0 with
  | .exc => .exc
  | .ok c0 =>
  let s1 := if c0 = 'c' then pySliceFrom s 1 else s
  match pyGetChar s1 (-1) with
  | .exc => .exc
  | .ok clast =>
  .ok (match pyInt (pySlice s1 1 4) with
       | some t => some (if clast = 'C' then CtoF (t : ℚ) else (t : ℚ))
       | none => none)

/-- `Station._decodeHumidity`: everything is inside the `try` block, so the
decoder is total. -/
def _decodeHumidity (s : String) : Option ℚ :=
  (pyInt (pySlice s 1 3)).map (fun n => (n : ℚ))

/-- `Station._decodeWindSpeed`.  The `s[0]` high/low-marker test is outside
the `try` block and can raise; `s[4]` (unit marker) and `int(s[1:4])` are
inside it.  A unit marker other than `K`/`L` leaves the parsed integer
unconverted (the `M` branch is `pass`, and an unrecognized marker falls
through all branches). -/
def _decodeWindSpeed (s : String) : PyRes (Option ℚ) :=
  match pyGetChar s 0 with
  | .exc => .exc
  | .ok c0 =>
  let s1 := if c0 = '<' ∨ c0 = '>' then pySliceFrom s 1 else s
  .ok (match pyGetChar s1 4, pyInt (pySlice s1 1 4) with
       | .ok u, some n =>
         if u = 'K' then some ((n : ℚ) * MILE_PER_KNOT)
         else if u = 'L' then some (kph_to_mph (n : ℚ))
         else some ((n : ℚ))
       | _, _ => none)

/-- `Station._decodeWindDirection`.  The `s[0]` test is outside the `try`
block; `int(s[5:8])` is inside it. -/
def _decodeWindDirection (s : String) : PyRes (Option ℚ) :=
  match pyGetChar s 0 with
  | .exc => .exc
  | .ok c0 =>
  let s1 := if c0 = '<' ∨ c0 = '>' then pySliceFrom s 1 else s
  .ok ((pyInt (pySlice s1 5 8)).map (fun n => (n : ℚ)))

/-- `Station._decodeBarometer`: the whole parse is inside the `try` block
(total), and afterwards a value equal to `0.0` is discarded as a glitch
(`None == 0.0` is false in Python, so an already-absent value stays
absent). -/
def _decodeBarometer (s : String) : Option ℚ :=
  let b : Option ℚ :=
    match pyGetChar s (-1) with
    | .exc => none
    | .ok clast =>
      match pyInt (pySlice s 1 5) with
      | none => none
      | some n => some (if clast = 'M' then (n : ℚ) * INHG_PER_MBAR else (n : ℚ) / 100)
  match b with
  | some v => if v = 0 then none else some v
  | none => none

/-- `Station._decodeRain`: the whole parse, including the `s[1] == 'R'`
rain-rate marker test and the `s[-1] == 'C'` centimeter test, is inside the
`try` block, so the decoder is total. -/
def _decodeRain (s : String) : Option ℚ :=
  match pyGetChar s 1 with
  | .exc => none
  | .ok c1 =>
  let s1 := if c1 = 'R' then pySliceFrom s 1 else s
  match pyGetChar s1 (-1) with
  | .exc => none
  | .ok clast =>
  if clast = 'C' then
    (pyInt (pySlice s1 1 7)).map (fun n => (n : ℚ) / 100 / CM_PER_INCH)
  else
    (pyInt (pySlice s1 1 6)).map (fun n => (n : ℚ) / 100)

/-- The entries `Station.get_readings` can put into its `data` dictionary,
in the source's own spelling (including the `windhcill` typo).  Every key
except `rain` is assigned by each completed attempt, possibly with the
value `None` (modelled as `none`).  The `rain` key is only ever assigned a
number, so for that field `none` means the key is absent from the
dictionary. -/
structure Readings where
  inTemp : Option ℚ
  outTemp : Option ℚ
  inHumidity : Option ℚ
  outHumidity : Option ℚ
  windSpeed : Option ℚ
  windDir : Option ℚ
  windGust : Option ℚ
  windGustDir : Option ℚ
  barometer : Option ℚ
  rain : Option ℚ
  rain_rate : Option ℚ
  windhcill : Option ℚ
  deriving DecidableEq

/-- The empty dictionary `data = dict()` created before the retry loop. -/
def Readings.empty : Readings :=
  ⟨none, none, none, none, none, none, none, none, none, none, none, none⟩

/-- The rain block of `get_readings`: if the rain total decoded, compute
the delta against `last_rain`, clamp a negative delta to `0.0`, store the
delta under `rain` and advance `last_rain`; otherwise leave both alone. -/
def rainStep (t? : Option ℚ) (d : Readings) (l : ℚ) : Readings × ℚ :=
  match t? with
  | some t =>
    let delta := t - l
    ({ d with rain := some (if delta < 0 then 0 else delta) }, t)
  | none => (d, l)

/-- One attempt (one iteration of the `for ntries` loop) of
`Station.get_readings`.  `resp k` is the trimmed response line of the k-th
`send_AT_cmd` of the fixed sequence RTI, RTO, RHI, RHO, RWA, RWGH, CWGH,
RB, RR, RRR, RWCA (`.exc` = the transport raised).  Returns whether the
attempt reached `return data`, together with the dictionary and
`last_rain` as they stand when the attempt ends — on a fault the partial
updates made before the fault persist, exactly as the mutable `data` dict
and `self.last_rain` do in the source. -/
def attemptBody (resp : Nat → PyRes String) (data0 : Readings) (lr0 : ℚ) :
    Bool × Readings × ℚ :=
  match resp 0 with
  | .exc => (false, data0, lr0)
  | .ok b0 =>
  match _decodeTemperature b0 with
  | .exc => (false, data0, lr0)
  | .ok v0 =>
  let d1 := { data0 with inTemp := v0 }
  match resp 1 with
  | .exc => (false, d1, lr0)
  | .ok b1 =>
  match _decodeTemperature b1 with
  | .exc => (false, d1, lr0)
  | .ok v1 =>
  let d2 := { d1 with outTemp := v1 }
  match resp 2 with
  | .exc => (false, d2, lr0)
  | .ok b2 =>
  let d3 := { d2 with inHumidity := _decodeHumidity b2 }
  match resp 3 with
  | .exc => (false, d3, lr0)
  | .ok b3 =>
  let d4 := { d3 with outHumidity := _decodeHumidity b3 }
  match resp 4 with
  | .exc => (false, d4, lr0)
  | .ok b4 =>
  match _decodeWindSpeed b4 with
  | .exc => (false, d4, lr0)
  | .ok v4 =>
  let d5 := { d4 with windSpeed := v4 }
  match _decodeWindDirection b4 with
  | .exc => (false, d5, lr0)
  | .ok v5 =>
  let d6 := { d5 with windDir := v5 }
  match resp 5 with
  | .exc => (false, d6, lr0)
  | .ok b5 =>
  match _decodeWindSpeed b5 with
  | .exc => (false, d6, lr0)
  | .ok v6 =>
  let d7 := { d6 with windGust := v6 }
  match _decodeWindDirection b5 with
  | .exc => (false, d7, lr0)
  | .ok v7 =>
  let d8 := { d7 with windGustDir := v7 }
  match resp 6 with
  | .exc => (false, d8, lr0)
  | .ok _ =>
  match resp 7 with
  | .exc => (false, d8, lr0)
  | .ok b7 =>
  let d9 := { d8 with barometer := _decodeBarometer b7 }
  match resp 8 with
  | .exc => (false, d9, lr0)
  | .ok b8 =>
  let p := rainStep (_decodeRain b8) d9 lr0
  match resp 9 with
  | .exc => (false, p.1, p.2)
  | .ok b9 =>
  let d10 := { p.1 with rain_rate := _decodeRain b9 }
  match resp 10 with
  | .exc => (false, d10, p.2)
  | .ok b10 =>
  match _decodeTemperature (pySliceFrom b10 1) with
  | .exc => (false, d10, p.2)
  | .ok v10 =>
  (true, { d10 with windhcill := v10 }, p.2)

/-- Outcome of `Station.get_readings`: the returned dictionary, the
`weewx.RetriesExceeded` fault raised after the loop, or the
`UnboundLocalError` raised by the `except` handler itself when its log
line reads the local `buf` before any `send_AT_cmd` has ever returned. -/
inductive PollResult where
  | ok (r : Readings)
  | retriesExceeded
  | unboundLocalError
  deriving DecidableEq

/-- The `for ntries in range(0, max_tries)` loop of `get_readings`.
`env i` gives attempt `i`'s responses.  `bound` records whether the local
`buf` has been bound by some `send_AT_cmd` that returned (in this or an
earlier attempt); it is first bound by an attempt's first exchange, so an
attempt binds it exactly when `env i 0` returns.  On a failed attempt the
`except` handler's log line reads `buf`: if `buf` is still unbound (the
first exchange of the first attempt faulted), the handler raises
`UnboundLocalError`, which is not in the `except` tuple — the loop aborts
after that attempt with no `time.sleep`; otherwise the handler logs,
sleeps and the loop retries.  Result components: the outcome, the final
`self.last_rain`, the number of attempts made, and the number of
`time.sleep(retry_wait)` calls executed (one after every failed attempt
whose handler completes, including the last one before `RetriesExceeded`
is raised). -/
def pollLoop : (Nat → Nat → PyRes String) → Nat → Bool → Readings → ℚ →
    PollResult × ℚ × Nat × Nat
  | _, 0, _, _, l => (.retriesExceeded, l, 0, 0)
  | env, fuel + 1, bound, d, l =>
    match attemptBody (env 0) d l with
    | (true, d', l') => (.ok d', l', 1, 0)
    | (false, d', l') =>
      if bound || (env 0 0).isOk then
        let r := pollLoop (fun i => env (i + 1)) fuel (bound || (env 0 0).isOk) d' l'
        (r.1, r.2.1, r.2.2.1 + 1, r.2.2.2 + 1)
      else
        (.unboundLocalError, l', 1, 0)

/-- `Station.get_readings(max_tries, retry_wait)` with prior session state
`self.last_rain = lr`: the `data` dictionary is created empty once, before
the loop, and the local `buf` starts out unbound. -/
def get_readings (env : Nat → Nat → PyRes String) (max_tries : Nat) (lr : ℚ) :
    PollResult × ℚ × Nat × Nat :=
  pollLoop env max_tries false Readings.empty lr

/-- `Station.open`, reduced to the state it establishes: it sends EC, LS,
XCA, CWGH and then RR (any transport fault propagates, so `open` does not
return), decodes the RR response, and sets `self.last_rain` to the decoded
total, or to `0` if the decode failed.  The result is the value of
`self.last_rain` (an `Option`, since the field starts out as `None`) when
`open` returns. -/
def stationOpen (resp : Nat → PyRes String) : PyRes (Option ℚ) :=
  match resp 0 with
  | .exc => .exc
  | .ok _ =>
  match resp 1 with
  | .exc => .exc
  | .ok _ =>
  match resp 2 with
  | .exc => .exc
  | .ok _ =>
  match resp 3 with
  | .exc => .exc
  | .ok _ =>
  match resp 4 with
  | .exc => .exc
  | .ok buf =>
  let lr := _decodeRain buf
  .ok (if lr = none then some 0 else lr)

/-- Outcome of `Station.get_time`: the broken-down station timestamp passed
to `time.mktime` (timestamp composition itself is outside the model), the
`int(time.time())` fallback, or an uncaught `ValueError` propagating out of
`int(...)`. -/
inductive TimeResult where
  | station (year MM DD hh mm ss : Int)
  | system
  | valueError
  deriving DecidableEq

/-- `Station.get_time`.  `rt` and `rd` are the outcomes of the RT and RD
exchanges.  The `except` clause catches only `SerialException` and
`WeeWxIOError` (modelled by `.exc`), turning them into the system-time
fallback; a `ValueError` raised by `int(...)` on a non-integer response is
not in that list and propagates.  Python `//` is floor division
(`Int.fdiv`). -/
def get_time (rt rd : PyRes String) : TimeResult :=
  match rt with
  | .exc => .system
  | .ok st =>
  match pyInt st with
  | none => .valueError
  | some sta_time =>
  match rd with
  | .exc => .system
  | .ok sd =>
  match pyInt sd with
  | none => .valueError
  | some sta_date =>
  let hh := sta_time.fdiv 10000
  let mm := sta_time.fdiv 100 - hh * 100
  let ss := sta_time - mm * 100 - hh * 10000
  let YY := sta_date.fdiv 10000
  let MM := sta_date.fdiv 100 - YY * 100
  let DD := sta_date - MM * 100 - YY * 10000
  let year := if YY > 86 then 1900 + YY else 2000 + YY
  .station year MM DD hh mm ss

/-- The `year` component of a `TimeResult`, when the station clock was
used. -/
def TimeResult.yearOf : TimeResult → Option Int
  | .station y _ _ _ _ _ => some y
  | _ => none

/-- The `rain` entry of a poll outcome (`none` when the poll raised). -/
def PollResult.rainEntry : PollResult → Option (Option ℚ)
  | .ok r => some r.rain
  | _ => none

theorem pyGetChar_cons_zero (c : Char) (cs : List Char) :
    pyGetChar ⟨c :: cs⟩ 0 = .ok c := by
  simp [pyGetChar, String.length, String.toList]

theorem pyGetChar_cons_neg_one (c : Char) (cs : List Char) :
    pyGetChar ⟨c :: cs⟩ (-1) = .ok ((c :: cs).getD cs.length 'A') := by
  simp only [pyGetChar]
  norm_num

theorem pySliceFrom_cons_one (c : Char) (cs : List Char) :
    pySliceFrom ⟨c :: cs⟩ 1 = ⟨cs⟩ := by
  simp [pySliceFrom, String.toList]

/-- C1, counterexample: on the empty trimmed response line (which the
transport produces on a read timeout), `_decodeTemperature` evaluates
`s[0]` outside its `try` block and the resulting `IndexError` propagates to
the caller, so the decoder does not return an absent value there.  (The
source's `get_readings` deliberately lists `IndexError` in its own `except`
clause, confirming that decoders are allowed to raise it.) -/
theorem C1_counterexample : _decodeTemperature "" = PyRes.exc := by decide

/-- C1, amended: each field decoder returns either a numeric value or an
absent value (`none`) without raising, except that the marker checks
performed before entering the `try` blocks raise an index fault on inputs
too short for them: `_decodeTemperature` on `""` and on `"c"`,
`_decodeWindSpeed` and `_decodeWindDirection` on `""`.  `_decodeHumidity`,
`_decodeBarometer` and `_decodeRain` never raise: they are total functions
of the model because every partial operation they perform lies inside their
`try` block. -/
theorem C1_decoders_raise_only_on_short_input :
    (∀ s : String, s ≠ "" → s ≠ "c" → (_decodeTemperature s).isOk = true)
  ∧ (∀ s : String, s ≠ "" → (_decodeWindSpeed s).isOk = true)
  ∧ (∀ s : String, s ≠ "" → (_decodeWindDirection s).isOk = true)
  ∧ _decodeTemperature "c" = PyRes.exc
  ∧ _decodeWindSpeed "" = PyRes.exc
  ∧ _decodeWindDirection "" = PyRes.exc := by
  refine ⟨?_, ?_, ?_, by decide, by decide, by decide⟩
  · intro s hs hsc
    obtain ⟨l⟩ := s
    cases l with
    | nil => exact absurd rfl hs
    | cons c cs =>
      by_cases hc : c = 'c'
      · subst hc
        cases cs with
        | nil => exact absurd rfl hsc
        | cons c2 cs2 =>
          simp [_decodeTemperature, pyGetChar_cons_zero, pySliceFrom_cons_one,
            pyGetChar_cons_neg_one, PyRes.isOk]
      · simp [_decodeTemperature, pyGetChar_cons_zero, pySliceFrom_cons_one,
          pyGetChar_cons_neg_one, PyRes.isOk, hc]
  · intro s hs
    obtain ⟨l⟩ := s
    cases l with
    | nil => exact absurd rfl hs
    | cons c cs =>
      simp [_decodeWindSpeed, pyGetChar_cons_zero, PyRes.isOk]
  · intro s hs
    obtain ⟨l⟩ := s
    cases l with
    | nil => exact absurd rfl hs
    | cons c cs =>
      simp [_decodeWindDirection, pyGetChar_cons_zero, PyRes.isOk]

/-- C1 witness: the amended theorem applied at concrete inputs. -/
theorem C1_witness :
    (_decodeTemperature "t072").isOk = true
  ∧ (_decodeWindSpeed "W015M180D").isOk = true
  ∧ (_decodeWindDirection "W015M180D").isOk = true :=
  ⟨C1_decoders_raise_only_on_short_input.1 "t072" (by decide) (by decide),
   C1_decoders_raise_only_on_short_input.2.1 "W015M180D" (by decide),
   C1_decoders_raise_only_on_short_input.2.2.1 "W015M180D" (by decide)⟩

/-- Characterization of a fault-free attempt of `get_readings`: when every
`send_AT_cmd` returns a line and every decoder call returns rather than
raising, the attempt reaches `return data`; every key except `rain` is
overwritten with its decoder's output, and the rain block acts as
`rainStep` on the threaded state. -/
theorem attemptBody_ok (resp : Nat → PyRes String)
    (d : Readings) (l : ℚ)
    (r0 r1 r2 r3 r4 r5 r6 r7 r8 r9 r10 : String)
    (hr0 : resp 0 = .ok r0) (hr1 : resp 1 = .ok r1) (hr2 : resp 2 = .ok r2)
    (hr3 : resp 3 = .ok r3) (hr4 : resp 4 = .ok r4) (hr5 : resp 5 = .ok r5)
    (hr6 : resp 6 = .ok r6) (hr7 : resp 7 = .ok r7) (hr8 : resp 8 = .ok r8)
    (hr9 : resp 9 = .ok r9) (hr10 : resp 10 = .ok r10)
    (tIn tOut ws wd wg wgd wc : Option ℚ)
    (h0 : _decodeTemperature r0 = .ok tIn)
    (h1 : _decodeTemperature r1 = .ok tOut)
    (h4s : _decodeWindSpeed r4 = .ok ws)
    (h4d : _decodeWindDirection r4 = .ok wd)
    (h5s : _decodeWindSpeed r5 = .ok wg)
    (h5d : _decodeWindDirection r5 = .ok wgd)
    (h10 : _decodeTemperature (pySliceFrom r10 1) = .ok wc) :
    attemptBody resp d l =
      (true,
       { (rainStep (_decodeRain r8)
           { d with
             inTemp := tIn, outTemp := tOut,
             inHumidity := _decodeHumidity r2, outHumidity := _decodeHumidity r3,
             windSpeed := ws, windDir := wd, windGust := wg, windGustDir := wgd,
             barometer := _decodeBarometer r7 } l).1 with
         rain_rate := _decodeRain r9, windhcill := wc },
       (rainStep (_decodeRain r8)
           { d with
             inTemp := tIn, outTemp := tOut,
             inHumidity := _decodeHumidity r2, outHumidity := _decodeHumidity r3,
             windSpeed := ws, windDir := wd, windGust := wg, windGustDir := wgd,
             barometer := _decodeBarometer r7 } l).2) := by
  simp only [attemptBody, hr0, hr1, hr2, hr3, hr4, hr5, hr6, hr7, hr8, hr9, hr10,
    h0, h1, h4s, h4d, h5s, h5d, h10]

theorem pollLoop_first_ok (env : Nat → Nat → PyRes String) (N : Nat)
    (bound : Bool) (d d' : Readings) (l l' : ℚ)
    (h : attemptBody (env 0) d l = (true, d', l')) :
    pollLoop env (N + 1) bound d l = (.ok d', l', 1, 0) := by
  simp [pollLoop, h]

theorem dec_t072 : _decodeTemperature "t072" = .ok (some 72) := by decide

theorem dec_T068 : _decodeTemperature "T068" = .ok (some 68) := by decide

theorem dec_h45 : _decodeHumidity "h45" = some 45 := by decide

theorem dec_H99 : _decodeHumidity "H99" = some 99 := by decide

theorem dec_W015M180D_s : _decodeWindSpeed "W015M180D" = .ok (some 15) := by decide

theorem dec_W015M180D_d : _decodeWindDirection "W015M180D" = .ok (some 180) := by decide

theorem dec_W020M090D_s : _decodeWindSpeed "W020M090D" = .ok (some 20) := by decide

theorem dec_W020M090D_d : _decodeWindDirection "W020M090D" = .ok (some 90) := by decide

theorem dec_cT065 : _decodeTemperature (pySliceFrom "cT065" 1) = .ok (some 65) := by decide

theorem dec_B2992 : _decodeBarometer "B2992" = some (748 / 25) := by
  have h1 : pyGetChar "B2992" (-1) = .ok '2' := by decide
  have h2 : pyInt (pySlice "B2992" 1 5) = some 2992 := by decide
  simp [_decodeBarometer, h1, h2]
  norm_num

theorem dec_R00480 : _decodeRain "R00480" = some (24 / 5) := by
  have h1 : pyGetChar "R00480" 1 = .ok '0' := by decide
  have h2 : pyGetChar "R00480" (-1) = .ok '0' := by decide
  have h3 : pyInt (pySlice "R00480" 1 6) = some 480 := by decide
  simp [_decodeRain, h1, h2, h3]
  norm_num

theorem dec_R00525 : _decodeRain "R00525" = some (21 / 4) := by
  have h1 : pyGetChar "R00525" 1 = .ok '0' := by decide
  have h2 : pyGetChar "R00525" (-1) = .ok '5' := by decide
  have h3 : pyInt (pySlice "R00525" 1 6) = some 525 := by decide
  simp [_decodeRain, h1, h2, h3]
  norm_num

theorem dec_RR00000 : _decodeRain "RR00000" = some 0 := by
  have h1 : pyGetChar "RR00000" 1 = .ok 'R' := by decide
  have hs : pySliceFrom "RR00000" 1 = "R00000" := by decide
  have h2 : pyGetChar "R00000" (-1) = .ok '0' := by decide
  have h3 : pyInt (pySlice "R00000" 1 6) = some 0 := by decide
  simp [_decodeRain, h1, hs, h2, h3]

/-- Response lines of one fault-free cycle, used by the concrete witness
environments below. -/
def goodLines : List String :=
  ["t072", "T068", "h45", "H99", "W015M180D", "W020M090D", "OK", "B2992",
   "R00480", "RR00000", "cT065"]

/-- A fault-free attempt built from `goodLines`. -/
def goodResp : Nat → PyRes String := fun k => .ok (goodLines.getD k "")

/-- An environment whose every attempt hits a transport fault on its first
command. -/
def envAllFail : Nat → Nat → PyRes String := fun _ _ => PyRes.exc

/-- C2: the claim states the intended retry policy (`N` attempts, one
`time.sleep(retry_wait)` after each failed attempt, then
`RetriesExceeded`), which is also what the driver's docstring promises
("max_tries - how often to retry serial communication before giving up").
The code breaks it on one path: when the very first exchange (RTI) of the
very first attempt raises a transport fault, the `except` handler's log
line reads the local `buf`, which no `send_AT_cmd` has yet bound, so the
handler itself raises `UnboundLocalError` — `get_readings` aborts after
exactly one attempt, with no sleep and no `RetriesExceeded`.  This theorem
evaluates the embedding at that failing input: an always-faulting
transport with `max_tries = 3` yields `UnboundLocalError` after 1 attempt
and 0 sleeps, where the claim demands 3 attempts, 3 waits and
`RetriesExceeded`. -/
theorem C2_unbound_local_abort :
    get_readings envAllFail 3 0 = (PollResult.unboundLocalError, 0, 1, 0) := by
  decide

/-- C3, amended: in a cycle with no transport fault and no decoder index
fault, `get_readings` returns after exactly one attempt with no retry, and
every entry of the mapping equals its field decoder's outcome on that
field's response text: entries are absent exactly for the fields whose
decoder rejected its text (returned `None`), populated with the decoded
value otherwise (for the rain total, via the delta-and-clamp step; the
`rain` key is omitted when the rain decoder rejects).  The original
claim's "malformed (wrong length, or a non-digit character where a digit
is expected) implies absent" is not preserved: positional slicing clips,
so such text can still parse (see the counterexample). -/
theorem C3_first_attempt_characterization (env : Nat → Nat → PyRes String)
    (N : Nat) (L : ℚ)
    (r0 r1 r2 r3 r4 r5 r6 r7 r8 r9 r10 : String)
    (hr0 : env 0 0 = .ok r0) (hr1 : env 0 1 = .ok r1) (hr2 : env 0 2 = .ok r2)
    (hr3 : env 0 3 = .ok r3) (hr4 : env 0 4 = .ok r4) (hr5 : env 0 5 = .ok r5)
    (hr6 : env 0 6 = .ok r6) (hr7 : env 0 7 = .ok r7) (hr8 : env 0 8 = .ok r8)
    (hr9 : env 0 9 = .ok r9) (hr10 : env 0 10 = .ok r10)
    (tIn tOut ws wd wg wgd wc : Option ℚ)
    (h0 : _decodeTemperature r0 = .ok tIn)
    (h1 : _decodeTemperature r1 = .ok tOut)
    (h4s : _decodeWindSpeed r4 = .ok ws)
    (h4d : _decodeWindDirection r4 = .ok wd)
    (h5s : _decodeWindSpeed r5 = .ok wg)
    (h5d : _decodeWindDirection r5 = .ok wgd)
    (h10 : _decodeTemperature (pySliceFrom r10 1) = .ok wc) :
    get_readings env (N + 1) L =
      (PollResult.ok
        { inTemp := tIn, outTemp := tOut,
          inHumidity := _decodeHumidity r2, outHumidity := _decodeHumidity r3,
          windSpeed := ws, windDir := wd, windGust := wg, windGustDir := wgd,
          barometer := _decodeBarometer r7,
          rain := (match _decodeRain r8 with
                   | some t => some (if t - L < 0 then 0 else t - L)
                   | none => none),
          rain_rate := _decodeRain r9, windhcill := wc },
       (match _decodeRain r8 with | some t => t | none => L), 1, 0) := by
  have h := attemptBody_ok (env 0) Readings.empty L r0 r1 r2 r3 r4 r5 r6 r7 r8 r9 r10
    hr0 hr1 hr2 hr3 hr4 hr5 hr6 hr7 hr8 hr9 hr10
    tIn tOut ws wd wg wgd wc h0 h1 h4s h4d h5s h5d h10
  have hp := pollLoop_first_ok env N false Readings.empty _ L _ h
  rw [get_readings, hp]
  cases hr : _decodeRain r8 with
  | none => simp [rainStep, hr, Readings.empty]
  | some t => simp [rainStep, hr, Readings.empty]

/-- The responses of a cycle whose indoor-temperature line `"t1"` is
malformed in the claim's sense (wrong length: two characters instead of
the expected four or five), with every other line well-formed. -/
def envC3 : Nat → Nat → PyRes String := fun _ k =>
  .ok (["t1", "T068", "h45", "H99", "W015M180D", "W020M090D", "OK", "B2992",
        "R00480", "RR00000", "cT065"].getD k "")

theorem dec_t1 : _decodeTemperature "t1" = .ok (some 1) := by decide

/-- C3, counterexample: with the malformed (wrong-length) indoor-temperature
response `"t1"` and all other responses well-formed, the cycle completes in
one attempt but the `inTemp` entry is populated with `1` — `int("1")`
succeeds on the clipped slice — where the claim requires it to be absent. -/
theorem C3_counterexample :
    get_readings envC3 1 0 =
      (PollResult.ok ⟨some 1, some 68, some 45, some 99, some 15, some 180,
        some 20, some 90, some (748 / 25), some (24 / 5), some 0, some 65⟩,
       24 / 5, 1, 0) := by
  have h := attemptBody_ok (envC3 0) Readings.empty 0
    "t1" "T068" "h45" "H99" "W015M180D" "W020M090D" "OK" "B2992"
    "R00480" "RR00000" "cT065"
    rfl rfl rfl rfl rfl rfl rfl rfl rfl rfl rfl
    (some 1) (some 68) (some 15) (some 180) (some 20) (some 90) (some 65)
    dec_t1 dec_T068 dec_W015M180D_s dec_W015M180D_d
    dec_W020M090D_s dec_W020M090D_d dec_cT065
  rw [dec_h45, dec_H99, dec_B2992, dec_R00480, dec_RR00000] at h
  have hs : attemptBody (envC3 0) Readings.empty 0 =
      (true, ⟨some 1, some 68, some 45, some 99, some 15, some 180,
        some 20, some 90, some (748 / 25), some (24 / 5), some 0, some 65⟩,
       24 / 5) := by
    rw [h]
    norm_num [rainStep, Readings.empty]
  have hp := pollLoop_first_ok envC3 0 false Readings.empty _ 0 _ hs
  rw [get_readings, hp]

/-- The responses of a cycle whose indoor-humidity line `"hxx"` is rejected
by its decoder, with every other line well-formed. -/
def envC3w : Nat → Nat → PyRes String := fun _ k =>
  .ok (["t072", "T068", "hxx", "H99", "W015M180D", "W020M090D", "OK", "B2992",
        "R00480", "RR00000", "cT065"].getD k "")

theorem dec_hxx : _decodeHumidity "hxx" = none := by decide

/-- C3 witness: the amended theorem applied to a concrete cycle in which
exactly one decoder (indoor humidity) rejects its text: that entry is
absent, all others are populated, and only one attempt is made. -/
theorem C3_witness :
    get_readings envC3w 1 0 =
      (PollResult.ok ⟨some 72, some 68, none, some 99, some 15, some 180,
        some 20, some 90, some (748 / 25), some (24 / 5), some 0, some 65⟩,
       24 / 5, 1, 0) := by
  have h := C3_first_attempt_characterization envC3w 0 0
    "t072" "T068" "hxx" "H99" "W015M180D" "W020M090D" "OK" "B2992"
    "R00480" "RR00000" "cT065"
    rfl rfl rfl rfl rfl rfl rfl rfl rfl rfl rfl
    (some 72) (some 68) (some 15) (some 180) (some 20) (some 90) (some 65)
    dec_t072 dec_T068 dec_W015M180D_s dec_W015M180D_d
    dec_W020M090D_s dec_W020M090D_d dec_cT065
  rw [dec_hxx, dec_H99, dec_B2992, dec_R00480, dec_RR00000] at h
  rw [h]
  norm_num

/-- C4: in a successful poll cycle (the first attempt completes) whose
rain-total response decodes to `T`, with prior session state
`last_rain = L`: the snapshot's rain entry is `T - L` when `T ≥ L` and
`0.0` when `T < L` (the device-reset clamp), and `last_rain` is updated to
`T` afterwards in both cases. -/
theorem C4_rain_delta (env : Nat → Nat → PyRes String) (N : Nat) (L T : ℚ)
    (r0 r1 r2 r3 r4 r5 r6 r7 r8 r9 r10 : String)
    (hr0 : env 0 0 = .ok r0) (hr1 : env 0 1 = .ok r1) (hr2 : env 0 2 = .ok r2)
    (hr3 : env 0 3 = .ok r3) (hr4 : env 0 4 = .ok r4) (hr5 : env 0 5 = .ok r5)
    (hr6 : env 0 6 = .ok r6) (hr7 : env 0 7 = .ok r7) (hr8 : env 0 8 = .ok r8)
    (hr9 : env 0 9 = .ok r9) (hr10 : env 0 10 = .ok r10)
    (tIn tOut ws wd wg wgd wc : Option ℚ)
    (h0 : _decodeTemperature r0 = .ok tIn)
    (h1 : _decodeTemperature r1 = .ok tOut)
    (h4s : _decodeWindSpeed r4 = .ok ws)
    (h4d : _decodeWindDirection r4 = .ok wd)
    (h5s : _decodeWindSpeed r5 = .ok wg)
    (h5d : _decodeWindDirection r5 = .ok wgd)
    (h10 : _decodeTemperature (pySliceFrom r10 1) = .ok wc)
    (h8 : _decodeRain r8 = some T) :
    (get_readings env (N + 1) L).1.rainEntry =
      some (some (if L ≤ T then T - L else 0))
  ∧ (get_readings env (N + 1) L).2.1 = T := by
  have h := attemptBody_ok (env 0) Readings.empty L r0 r1 r2 r3 r4 r5 r6 r7 r8 r9 r10
    hr0 hr1 hr2 hr3 hr4 hr5 hr6 hr7 hr8 hr9 hr10
    tIn tOut ws wd wg wgd wc h0 h1 h4s h4d h5s h5d h10
  have hp := pollLoop_first_ok env N false Readings.empty _ L _ h
  constructor
  · rw [get_readings, hp]
    simp [PollResult.rainEntry, h8, rainStep]
    rcases le_or_lt L T with hle | hlt
    · rw [if_neg (not_lt.mpr hle), if_pos hle]
    · rw [if_pos hlt, if_neg (not_le.mpr hlt)]
  · rw [get_readings, hp]
    simp [h8, rainStep]

/-- Every attempt is the fault-free `goodResp` cycle (rain total 4.80). -/
def envGood : Nat → Nat → PyRes String := fun _ => goodResp

/-- Like `goodResp`, but with rain total 5.25. -/
def envR525 : Nat → Nat → PyRes String := fun _ k =>
  .ok (["t072", "T068", "h45", "H99", "W015M180D", "W020M090D", "OK", "B2992",
        "R00525", "RR00000", "cT065"].getD k "")

/-- C4 witness: `last_rain = 5.00` and new total `4.80` yield rain delta
`0.0` and `last_rain = 4.80`; `last_rain = 5.00` and new total `5.25` yield
rain delta `0.25` and `last_rain = 5.25`. -/
theorem C4_witness :
    (get_readings envGood 1 5).1.rainEntry = some (some 0)
  ∧ (get_readings envGood 1 5).2.1 = 24 / 5
  ∧ (get_readings envR525 1 5).1.rainEntry = some (some (1 / 4))
  ∧ (get_readings envR525 1 5).2.1 = 21 / 4 := by
  have ha := C4_rain_delta envGood 0 5 (24 / 5)
    "t072" "T068" "h45" "H99" "W015M180D" "W020M090D" "OK" "B2992"
    "R00480" "RR00000" "cT065"
    rfl rfl rfl rfl rfl rfl rfl rfl rfl rfl rfl
    (some 72) (some 68) (some 15) (some 180) (some 20) (some 90) (some 65)
    dec_t072 dec_T068 dec_W015M180D_s dec_W015M180D_d
    dec_W020M090D_s dec_W020M090D_d dec_cT065 dec_R00480
  have hb := C4_rain_delta envR525 0 5 (21 / 4)
    "t072" "T068" "h45" "H99" "W015M180D" "W020M090D" "OK" "B2992"
    "R00525" "RR00000" "cT065"
    rfl rfl rfl rfl rfl rfl rfl rfl rfl rfl rfl
    (some 72) (some 68) (some 15) (some 180) (some 20) (some 90) (some 65)
    dec_t072 dec_T068 dec_W015M180D_s dec_W015M180D_d
    dec_W020M090D_s dec_W020M090D_d dec_cT065 dec_R00525
  refine ⟨?_, ha.2, ?_, hb.2⟩
  · rw [ha.1]
    norm_num
  · rw [hb.1]
    norm_num

theorem dec_Rxx999 : _decodeRain "Rxx999" = none := by decide

/-- C10, amended: any single attempt (poll cycle) whose rain-total response
is rejected by `_decodeRain` leaves `last_rain` unchanged and does not
touch the `rain` entry of the `data` dictionary — the entry keeps whatever
value it had before the attempt, hence stays absent when nothing had set
it — while all other entries are set to their own decoders' outcomes,
unaffected by the failed rain decode.  The original claim's stronger
"`get_readings` omits the rain-delta entry from the returned mapping
entirely and leaves `last_rain` unchanged" fails when an earlier failed
attempt of the same call already ran the rain block, because `data` is
created once, before the retry loop (see the counterexample). -/
theorem C10_rain_reject_frame (resp : Nat → PyRes String) (d : Readings) (l : ℚ)
    (r0 r1 r2 r3 r4 r5 r6 r7 r8 r9 r10 : String)
    (hr0 : resp 0 = .ok r0) (hr1 : resp 1 = .ok r1) (hr2 : resp 2 = .ok r2)
    (hr3 : resp 3 = .ok r3) (hr4 : resp 4 = .ok r4) (hr5 : resp 5 = .ok r5)
    (hr6 : resp 6 = .ok r6) (hr7 : resp 7 = .ok r7) (hr8 : resp 8 = .ok r8)
    (hr9 : resp 9 = .ok r9) (hr10 : resp 10 = .ok r10)
    (tIn tOut ws wd wg wgd wc : Option ℚ)
    (h0 : _decodeTemperature r0 = .ok tIn)
    (h1 : _decodeTemperature r1 = .ok tOut)
    (h4s : _decodeWindSpeed r4 = .ok ws)
    (h4d : _decodeWindDirection r4 = .ok wd)
    (h5s : _decodeWindSpeed r5 = .ok wg)
    (h5d : _decodeWindDirection r5 = .ok wgd)
    (h10 : _decodeTemperature (pySliceFrom r10 1) = .ok wc)
    (h8 : _decodeRain r8 = none) :
    attemptBody resp d l =
      (true,
       { d with
         inTemp := tIn, outTemp := tOut,
         inHumidity := _decodeHumidity r2, outHumidity := _decodeHumidity r3,
         windSpeed := ws, windDir := wd, windGust := wg, windGustDir := wgd,
         barometer := _decodeBarometer r7,
         rain_rate := _decodeRain r9, windhcill := wc },
       l) := by
  rw [attemptBody_ok resp d l r0 r1 r2 r3 r4 r5 r6 r7 r8 r9 r10
    hr0 hr1 hr2 hr3 hr4 hr5 hr6 hr7 hr8 hr9 hr10
    tIn tOut ws wd wg wgd wc h0 h1 h4s h4d h5s h5d h10, h8]
  simp [rainStep]

/-- One attempt whose rain-total line is rejected by the decoder and whose
other lines are well-formed. -/
def respRainReject : Nat → PyRes String := fun k =>
  .ok (["t072", "T068", "h45", "H99", "W015M180D", "W020M090D", "OK", "B2992",
        "Rxx999", "RR00000", "cT065"].getD k "")

/-- Attempt 0 decodes rain total 4.80 and then hits a transport fault on
the RRR command; attempt 1 is `respRainReject`. -/
def envC10 : Nat → Nat → PyRes String := fun i k =>
  if i = 0 then (if k = 9 then PyRes.exc else goodResp k) else respRainReject k

/-- C10, counterexample: in `get_readings envC10 2 0`, the attempt that
produces the returned mapping (attempt 1) has its rain-total response
`"Rxx999"` rejected by the decoder, yet the returned mapping still carries
`rain = 4.80` and `last_rain` has moved from `0` to `4.80` — both left over
from failed attempt 0, whose rain block ran before its transport fault on
the RRR command.  The claim's "omits the rain-delta entry entirely" and
"leaves last_rain unchanged" are therefore false for this call. -/
theorem C10_counterexample :
    _decodeRain "Rxx999" = none
  ∧ get_readings envC10 2 0 =
      (PollResult.ok ⟨some 72, some 68, some 45, some 99, some 15, some 180,
        some 20, some 90, some (748 / 25), some (24 / 5), some 0, some 65⟩,
       24 / 5, 2, 1) := by
  refine ⟨dec_Rxx999, ?_⟩
  have hatt0 : attemptBody (envC10 0) Readings.empty 0 =
      (false, ⟨some 72, some 68, some 45, some 99, some 15, some 180,
        some 20, some 90, some (748 / 25), some (24 / 5), none, none⟩,
       24 / 5) := by
    have e0 : envC10 0 0 = .ok "t072" := rfl
    have e1 : envC10 0 1 = .ok "T068" := rfl
    have e2 : envC10 0 2 = .ok "h45" := rfl
    have e3 : envC10 0 3 = .ok "H99" := rfl
    have e4 : envC10 0 4 = .ok "W015M180D" := rfl
    have e5 : envC10 0 5 = .ok "W020M090D" := rfl
    have e6 : envC10 0 6 = .ok "OK" := rfl
    have e7 : envC10 0 7 = .ok "B2992" := rfl
    have e8 : envC10 0 8 = .ok "R00480" := rfl
    have e9 : envC10 0 9 = PyRes.exc := rfl
    simp only [attemptBody, e0, e1, e2, e3, e4, e5, e6, e7, e8, e9,
      dec_t072, dec_T068, dec_h45, dec_H99, dec_W015M180D_s, dec_W015M180D_d,
      dec_W020M090D_s, dec_W020M090D_d, dec_B2992, dec_R00480]
    norm_num [rainStep, Readings.empty]
  have hatt1 : attemptBody (envC10 1)
      ⟨some 72, some 68, some 45, some 99, some 15, some 180,
        some 20, some 90, some (748 / 25), some (24 / 5), none, none⟩ (24 / 5) =
      (true, ⟨some 72, some 68, some 45, some 99, some 15, some 180,
        some 20, some 90, some (748 / 25), some (24 / 5), some 0, some 65⟩,
       24 / 5) := by
    have h := C10_rain_reject_frame (envC10 1)
      ⟨some 72, some 68, some 45, some 99, some 15, some 180,
        some 20, some 90, some (748 / 25), some (24 / 5), none, none⟩ (24 / 5)
      "t072" "T068" "h45" "H99" "W015M180D" "W020M090D" "OK" "B2992"
      "Rxx999" "RR00000" "cT065"
      rfl rfl rfl rfl rfl rfl rfl rfl rfl rfl rfl
      (some 72) (some 68) (some 15) (some 180) (some 20) (some 90) (some 65)
      dec_t072 dec_T068 dec_W015M180D_s dec_W015M180D_d
      dec_W020M090D_s dec_W020M090D_d dec_cT065 dec_Rxx999
    rw [h, dec_h45, dec_H99, dec_B2992, dec_RR00000]
  rw [get_readings]
  show pollLoop envC10 2 false Readings.empty 0 = _
  have e0 : envC10 0 0 = .ok "t072" := rfl
  simp only [pollLoop, hatt0, e0, PyRes.isOk, Bool.false_or, if_true]
  simp [hatt1]

/-- C10 witness: the amended theorem applied to a concrete attempt whose
rain-total line is rejected by the decoder: the attempt completes,
`last_rain` keeps its prior value `5`, the `rain` entry stays absent, and
every other entry is populated by its own decoder. -/
theorem C10_witness :
    attemptBody respRainReject Readings.empty 5 =
      (true, ⟨some 72, some 68, some 45, some 99, some 15, some 180,
        some 20, some 90, some (748 / 25), none, some 0, some 65⟩, 5) := by
  have h := C10_rain_reject_frame respRainReject Readings.empty 5
    "t072" "T068" "h45" "H99" "W015M180D" "W020M090D" "OK" "B2992"
    "Rxx999" "RR00000" "cT065"
    rfl rfl rfl rfl rfl rfl rfl rfl rfl rfl rfl
    (some 72) (some 68) (some 15) (some 180) (some 20) (some 90) (some 65)
    dec_t072 dec_T068 dec_W015M180D_s dec_W015M180D_d
    dec_W020M090D_s dec_W020M090D_d dec_cT065 dec_Rxx999
  rw [h, dec_h45, dec_H99, dec_B2992, dec_RR00000]
  norm_num [Readings.empty]

/-- C5: any barometer response whose 4-digit numeric field (characters 1-4)
is exactly `0000` decodes to an absent value, never `0.0`, whether or not
the trailing millibar marker `M` is present: both unit branches produce the
value `0.0`, which the glitch filter discards. -/
theorem C5_barometer_zero (s : String) (h : pySlice s 1 5 = "0000") :
    _decodeBarometer s = none := by
  obtain ⟨l⟩ := s
  have hl : (l.drop 1).take 4 = ['0', '0', '0', '0'] := congrArg String.toList h
  cases l with
  | nil => simp at hl
  | cons c cs =>
    have hpy : pyInt "0000" = some 0 := by decide
    simp only [_decodeBarometer, pyGetChar_cons_neg_one, h, hpy]
    by_cases hc : (c :: cs).getD cs.length 'A' = 'M' <;> simp [hc]

/-- C5 witness: the theorem applied to the concrete responses `"B0000M"`
(millibar marker) and `"B0000"` (no marker). -/
theorem C5_witness :
    pySlice "B0000M" 1 5 = "0000" ∧ _decodeBarometer "B0000M" = none
  ∧ pySlice "B0000" 1 5 = "0000" ∧ _decodeBarometer "B0000" = none :=
  ⟨by decide, C5_barometer_zero "B0000M" (by decide),
   by decide, C5_barometer_zero "B0000" (by decide)⟩

/-- C6, counterexample: a time response that is not an integer makes
`int(...)` raise `ValueError`, which is not in `get_time`'s `except`
clause (`SerialException`, `WeeWxIOError`): the fault propagates to the
caller instead of the system-time fallback being returned, contradicting
the claim that any decoding fault of the time response falls back to
system time. -/
theorem C6_counterexample :
    get_time (.ok "XX") (.ok "990101") = TimeResult.valueError := by decide

/-- C6, amended: a transport fault (`SerialException` / `WeeWxIOError`)
during either the RT or the RD exchange makes `get_time` swallow the fault
and return the caller's current system time; but a decoding fault — a time
or date response string that is not an integer — raises a `ValueError`
inside `int(...)` that is not caught and propagates to the caller. -/
theorem C6_get_time_fallback :
    (∀ rd, get_time PyRes.exc rd = TimeResult.system)
  ∧ (∀ st n, pyInt st = some n → get_time (.ok st) PyRes.exc = TimeResult.system)
  ∧ (∀ st rd, pyInt st = none → get_time (.ok st) rd = TimeResult.valueError)
  ∧ (∀ st n sd, pyInt st = some n → pyInt sd = none →
      get_time (.ok st) (.ok sd) = TimeResult.valueError) := by
  refine ⟨fun rd => rfl, ?_, ?_, ?_⟩
  · intro st n h
    simp [get_time, h]
  · intro st rd h
    simp [get_time, h]
  · intro st n sd h1 h2
    simp [get_time, h1, h2]

/-- C6 witness: the amended theorem applied at concrete inputs. -/
theorem C6_witness :
    get_time (.ok "123456") PyRes.exc = TimeResult.system
  ∧ get_time (.ok "123456") (.ok "9905AB") = TimeResult.valueError :=
  ⟨C6_get_time_fallback.2.1 "123456" 123456 (by decide),
   C6_get_time_fallback.2.2.2 "123456" 123456 "9905AB" (by decide) (by decide)⟩

/-- C7: for a date response decoding to the integer `d` with two-digit year
`YY = d // 10000` in `0..99`, the year `get_time` composes is `1900 + YY`
when `YY > 86` and `2000 + YY` otherwise. -/
theorem C7_century_rule (st sd : String) (t d : Int)
    (ht : pyInt st = some t) (hd : pyInt sd = some d)
    (hlo : 0 ≤ d.fdiv 10000) (hhi : d.fdiv 10000 ≤ 99) :
    (get_time (.ok st) (.ok sd)).yearOf =
      some (if d.fdiv 10000 > 86 then 1900 + d.fdiv 10000
            else 2000 + d.fdiv 10000) := by
  simp [get_time, ht, hd, TimeResult.yearOf]

/-- C7 witness: a two-digit year of `99` yields 1999 and `10` yields
2010. -/
theorem C7_witness :
    (get_time (.ok "120000") (.ok "990512")).yearOf = some 1999
  ∧ (get_time (.ok "120000") (.ok "100512")).yearOf = some 2010 := by
  constructor
  · have h := C7_century_rule "120000" "990512" 120000 990512
      (by decide) (by decide) (by decide) (by decide)
    rw [h]
    decide
  · have h := C7_century_rule "120000" "100512" 120000 100512
      (by decide) (by decide) (by decide) (by decide)
    rw [h]
    decide

/-- C8: for a wind response whose (marker-stripped) text `s1` has unit
marker `u` at offset 4 and 3-digit speed magnitude `n` at offsets 1-3,
`_decodeWindSpeed` returns `n * MILE_PER_KNOT` when `u = 'K'` (knots),
`kph_to_mph n` when `u = 'L'` (km/h), and `n` unchanged when `u = 'M'`
(mph); hence for three such strings differing only in the unit marker the
three decoded mph values are related by exactly those conversion
factors. -/
theorem C8_wind_speed_units (s s1 : String) (c0 u : Char) (n : Int)
    (hc : pyGetChar s 0 = .ok c0)
    (hs1 : (if c0 = '<' ∨ c0 = '>' then pySliceFrom s 1 else s) = s1)
    (hu : pyGetChar s1 4 = .ok u)
    (hn : pyInt (pySlice s1 1 4) = some n) :
    (u = 'K' → _decodeWindSpeed s = .ok (some ((n : ℚ) * MILE_PER_KNOT)))
  ∧ (u = 'L' → _decodeWindSpeed s = .ok (some (kph_to_mph (n : ℚ))))
  ∧ (u = 'M' → _decodeWindSpeed s = .ok (some ((n : ℚ)))) := by
  refine ⟨?_, ?_, ?_⟩ <;> intro h <;> subst h <;>
    simp [_decodeWindSpeed, hc, hs1, hu, hn]

/-- C8 witness: the theorem applied to the three concrete wind strings
`"W015K000D"`, `"W015L000D"`, `"W015M000D"`, which differ only in the unit
marker and share the magnitude 15. -/
theorem C8_witness :
    _decodeWindSpeed "W015K000D" = .ok (some (15 * MILE_PER_KNOT))
  ∧ _decodeWindSpeed "W015L000D" = .ok (some (kph_to_mph 15))
  ∧ _decodeWindSpeed "W015M000D" = .ok (some 15) := by
  refine ⟨?_, ?_, ?_⟩
  · have h := (C8_wind_speed_units "W015K000D" "W015K000D" 'W' 'K' 15
      (by decide) (by decide) (by decide) (by decide)).1 rfl
    rw [h]
    norm_num
  · have h := (C8_wind_speed_units "W015L000D" "W015L000D" 'W' 'L' 15
      (by decide) (by decide) (by decide) (by decide)).2.1 rfl
    rw [h]
    norm_num
  · have h := (C8_wind_speed_units "W015M000D" "W015M000D" 'W' 'M' 15
      (by decide) (by decide) (by decide) (by decide)).2.2 rfl
    rw [h]
    norm_num

/-- C9: whenever `Station.open` returns (no transport fault during its five
exchanges), the session state `last_rain` it establishes is a number, never
the initial `None`: it is the decoded rain total of the priming RR read,
or `0` when that decode failed. -/
theorem C9_open_primes_last_rain (resp : Nat → PyRes String)
    (a b c d s4 : String)
    (h0 : resp 0 = .ok a) (h1 : resp 1 = .ok b) (h2 : resp 2 = .ok c)
    (h3 : resp 3 = .ok d) (h4 : resp 4 = .ok s4) :
    stationOpen resp = .ok (some ((_decodeRain s4).getD 0))
  ∧ (_decodeRain s4 = none → stationOpen resp = .ok (some 0)) := by
  constructor
  · simp only [stationOpen, h0, h1, h2, h3, h4]
    cases hr : _decodeRain s4 with
    | none => simp [hr]
    | some t => simp [hr]
  · intro hnone
    simp [stationOpen, h0, h1, h2, h3, h4, hnone]

/-- C9 witness: the theorem applied to a concrete `open` whose priming
rain read fails to decode: `last_rain` ends up `0`, not absent. -/
theorem C9_witness :
    stationOpen (fun k => .ok (["OK", "OK", "OK", "OK", "Rxx999"].getD k ""))
      = .ok (some 0) :=
  (C9_open_primes_last_rain
    (fun k => .ok (["OK", "OK", "OK", "OK", "Rxx999"].getD k ""))
    "OK" "OK" "OK" "OK" "Rxx999" rfl rfl rfl rfl rfl).2 dec_Rxx999
